import Mathlib

/- Verification of the KubeIntel flow-telemetry ledger (`src/telemetry_api.py`,
class `TelemetryCollector`) and cost model (`src/cost_visualizer.py`, class
`CostVisualizer`), shallowly embedded in Lean.

Modelling conventions:
  * Timestamps are integer milliseconds since the epoch.  The Python code
    stores `datetime.utcnow().isoformat()` strings and re-parses them with
    `fromisoformat`; this round-trips exactly, so the string indirection is
    dropped.  Each operation takes the current time `now` as an argument
    (the embedding of `datetime.utcnow()`).
  * The embedding models the mock-tracing path (`traces_enabled = False`,
    i.e. the Strands library is unavailable), which is the deterministic
    path; on it `trace_id` is the string `"mock-trace-" ++ flow_id` and
    spans are synthesized by `_create_mock_spans`.
  * Python `deque(maxlen=n)` is a list that drops from the front on append
    beyond capacity (`dequeAppend`).  Python `dict` is an insertion-ordered
    association list (`dictInsert` replaces in place, `dictErase` deletes).
  * `x or default` in the Python sources falls back exactly when `x` is
    `None` at these call sites, embedded as `Option.getD`.
  * Python floats are embedded as exact rationals (ℚ); every pricing
    constant involved (0.25, 1.25, 50.0) is exactly representable.
  * Fields never read by any verified property (caller metadata, model
    name, span/trace metadata dictionaries, timestamps inside tool-call
    records) are not carried by the embedding. -/

namespace KubeIntel

/- ===== Data model (telemetry_api.py) ===== -/

inductive FlowType
  | agent_analysis
  | background_monitor
deriving DecidableEq

inductive FlowStatus
  | running
  | completed
  | error
  | timeout
deriving DecidableEq

def FlowStatus.str : FlowStatus → String
  | FlowStatus.running => "running"
  | FlowStatus.completed => "completed"
  | FlowStatus.error => "error"
  | FlowStatus.timeout => "timeout"

structure Tokens where
  input : Int
  output : Int
deriving DecidableEq

structure Insights where
  anomalies : Int
  warnings : Int
  recommendations : Int
deriving DecidableEq

/- A tool-call record as consumed by `_create_mock_spans`: the span
synthesis reads `tool.get('name', 'unknown')` and
`tool.get('duration', 1000)`; `duration` is `Option` to model a dict
without that key. -/
structure ToolCall where
  name : String
  duration : Option Int
deriving DecidableEq

structure Flow where
  id : String
  type : FlowType
  status : FlowStatus
  startTime : Int
  endTime : Option Int
  duration : Option Int
  request : Option String
  cycle : Option Int
  tokens : Tokens
  tools : List ToolCall
  insights : Option Insights
  error : Option String
  trace_id : String
deriving DecidableEq

structure Span where
  span_id : String
  name : String
  start_time : Int
  end_time : Int
  duration : Int
  status : String
deriving DecidableEq

structure TraceRec where
  trace_id : String
  flow_id : String
  type : FlowType
  name : String
  status : String
  startTime : Int
  endTime : Int
  duration : Int
  spans : List Span
deriving DecidableEq

/- ===== Containers ===== -/

/- `deque(maxlen).append`: keep the `maxlen` most recent elements,
evicting from the front. -/
def dequeAppend {α : Type} (maxlen : Nat) (xs : List α) (x : α) : List α :=
  (xs ++ [x]).drop (xs.length + 1 - maxlen)

def dictLookup (d : List (String × Flow)) (k : String) : Option Flow :=
  (d.find? (fun p => p.1 == k)).map Prod.snd

def dictInsert (d : List (String × Flow)) (k : String) (v : Flow) : List (String × Flow) :=
  if d.any (fun p => p.1 == k) then
    d.map (fun p => if p.1 == k then (k, v) else p)
  else
    d ++ [(k, v)]

def dictErase (d : List (String × Flow)) (k : String) : List (String × Flow) :=
  d.filter (fun p => !(p.1 == k))

/- ===== TelemetryCollector state ===== -/

structure TelemetryCollector where
  agent_flows_limit : Nat
  monitor_flows_limit : Nat
  traces_limit : Nat
  agent_flows : List Flow
  monitor_flows : List Flow
  active_flows : List (String × Flow)
  traces : List TraceRec
deriving DecidableEq

/- `TelemetryCollector.__init__`: the three capacities come from
environment settings (already parsed to integers here); a missing setting
falls back to the stated default. -/
def TelemetryCollector.init (agent_env monitor_env traces_env : Option Nat) :
    TelemetryCollector :=
  { agent_flows_limit := agent_env.getD 50
    monitor_flows_limit := monitor_env.getD 100
    traces_limit := traces_env.getD 200
    agent_flows := []
    monitor_flows := []
    active_flows := []
    traces := [] }

/- ===== Span synthesis (`_create_mock_spans`) ===== -/

def toolDuration (t : ToolCall) : Int := t.duration.getD 1000

def tool_spans (fid : String) : Nat → Int → List ToolCall → List Span
  | _, _, [] => []
  | i, current_time, t :: ts =>
    let tool_end := current_time + toolDuration t
    { span_id := "span-tool-" ++ toString i ++ "-" ++ fid
      name := "tool_execution_" ++ t.name
      start_time := current_time
      end_time := tool_end
      duration := toolDuration t
      status := "success" } :: tool_spans fid (i + 1) tool_end ts

/- The value of `current_time` after the per-tool spans are emitted. -/
def toolsEnd : Int → List ToolCall → Int
  | current_time, [] => current_time
  | current_time, t :: ts => toolsEnd (current_time + toolDuration t) ts

/- `_create_mock_spans(flow_data, tools)`.  At both call sites the flow's
`duration` and `endTime` have just been set, so the `getD` defaults
(mirroring `dict.get` defaults) are never taken there. -/
def create_mock_spans (flow_data : Flow) (tools : List ToolCall) : List Span :=
  let start_time := flow_data.startTime
  let init_duration : Int := 500
  let init_end := start_time + init_duration
  let llm_duration : Int := max (flow_data.duration.getD 10000 - 2000) 5000
  let llm_end := init_end + llm_duration
  let after_tools := toolsEnd llm_end tools
  let processing_duration : Int := 300
  let processing_end := after_tools + processing_duration
  let completion_duration : Int := 100
  let completion_end := flow_data.endTime.getD flow_data.startTime
  { span_id := "span-init-" ++ flow_data.id
    name := "initialization"
    start_time := start_time
    end_time := init_end
    duration := init_duration
    status := "success" } ::
  { span_id := "span-llm-" ++ flow_data.id
    name := "llm_execution"
    start_time := init_end
    end_time := llm_end
    duration := llm_duration
    status := "success" } ::
  (tool_spans flow_data.id 0 llm_end tools ++
    [{ span_id := "span-processing-" ++ flow_data.id
       name := "response_processing"
       start_time := after_tools
       end_time := processing_end
       duration := processing_duration
       status := "success" },
     { span_id := "span-complete-" ++ flow_data.id
       name := "completion"
       start_time := processing_end
       end_time := completion_end
       duration := completion_duration
       status := flow_data.status.str }])

/- ===== Ledger operations ===== -/

/- `start_agent_flow(flow_id, request, metadata)`. -/
def start_agent_flow (c : TelemetryCollector) (flow_id : String) (request : String)
    (now : Int) : TelemetryCollector × Flow :=
  let flow_data : Flow :=
    { id := flow_id
      type := FlowType.agent_analysis
      status := FlowStatus.running
      startTime := now
      endTime := none
      duration := none
      request := some request
      cycle := none
      tokens := { input := 0, output := 0 }
      tools := []
      insights := none
      error := none
      trace_id := "mock-trace-" ++ flow_id }
  ({ c with active_flows := dictInsert c.active_flows flow_id flow_data }, flow_data)

/- The ledger-generated monitor flow id
`f"monitor-cycle-{cycle}-{int(datetime.utcnow().timestamp())}"`
(the timestamp is whole seconds, hence `now / 1000`). -/
def monitorFlowId (cycle : Int) (now : Int) : String :=
  "monitor-cycle-" ++ toString cycle ++ "-" ++ toString (now / 1000)

/- `start_monitor_flow(cycle, metadata)`. -/
def start_monitor_flow (c : TelemetryCollector) (cycle : Int) (now : Int) :
    TelemetryCollector × Flow :=
  let flow_id := monitorFlowId cycle now
  let flow_data : Flow :=
    { id := flow_id
      type := FlowType.background_monitor
      status := FlowStatus.running
      startTime := now
      endTime := none
      duration := none
      request := none
      cycle := some cycle
      tokens := { input := 0, output := 0 }
      tools := []
      insights := some { anomalies := 0, warnings := 0, recommendations := 0 }
      error := none
      trace_id := "mock-trace-" ++ flow_id }
  ({ c with active_flows := dictInsert c.active_flows flow_id flow_data }, flow_data)

/- Python `'timeout' in s`: substring containment. -/
def subAt : List Char → List Char → Bool
  | [], _ => true
  | _ :: _, [] => false
  | a :: pat, b :: s => a == b && subAt pat s

def hasSubList (pat : List Char) : List Char → Bool
  | [] => subAt pat []
  | b :: s => subAt pat (b :: s) || hasSubList pat s

def strHasSub (s pat : String) : Bool :=
  hasSubList pat.data s.data

/- The `flow_data.update({...})` performed by `end_agent_flow`. -/
def agentTerminalRecord (fd : Flow) (success : Bool) (error : Option String)
    (tokens : Option Tokens) (tools : Option (List ToolCall)) (now : Int) : Flow :=
  { fd with
    status := if success then FlowStatus.completed else FlowStatus.error
    endTime := some now
    duration := some (now - fd.startTime)
    tokens := tokens.getD { input := 0, output := 0 }
    tools := tools.getD []
    error := error }

/- `end_agent_flow(flow_id, success, error, tokens, tools)`, mock-trace
path: the trace entry is always created (`trace_id` is a nonempty
mock string). -/
def end_agent_flow (c : TelemetryCollector) (flow_id : String) (success : Bool)
    (error : Option String) (tokens : Option Tokens) (tools : Option (List ToolCall))
    (now : Int) : TelemetryCollector × Option Flow :=
  match dictLookup c.active_flows flow_id with
  | none => (c, none)
  | some fd =>
    let ended := agentTerminalRecord fd success error tokens tools now
    let trace_entry : TraceRec :=
      { trace_id := ended.trace_id
        flow_id := flow_id
        type := FlowType.agent_analysis
        name := "agent_analysis_" ++ flow_id
        status := if success then "success" else "error"
        startTime := ended.startTime
        endTime := now
        duration := now - ended.startTime
        spans := create_mock_spans ended (tools.getD []) }
    ({ c with
        traces := dequeAppend c.traces_limit c.traces trace_entry
        agent_flows := dequeAppend c.agent_flows_limit c.agent_flows ended
        active_flows := dictErase c.active_flows flow_id },
      some ended)

/- The `flow_data.update({...})` performed by `end_monitor_flow`; note the
status expression
`'completed' if success else ('timeout' if 'timeout' in (error or '') else 'error')`. -/
def monitorTerminalRecord (fd : Flow) (success : Bool) (error : Option String)
    (tokens : Option Tokens) (tools : Option (List ToolCall))
    (insights : Option Insights) (now : Int) : Flow :=
  { fd with
    status :=
      if success then FlowStatus.completed
      else if strHasSub (error.getD "") "timeout" then FlowStatus.timeout
      else FlowStatus.error
    endTime := some now
    duration := some (now - fd.startTime)
    tokens := tokens.getD { input := 0, output := 0 }
    tools := tools.getD []
    insights := some (insights.getD { anomalies := 0, warnings := 0, recommendations := 0 })
    error := error }

/- `end_monitor_flow(flow_id, success, error, tokens, tools, insights)`. -/
def end_monitor_flow (c : TelemetryCollector) (flow_id : String) (success : Bool)
    (error : Option String) (tokens : Option Tokens) (tools : Option (List ToolCall))
    (insights : Option Insights) (now : Int) : TelemetryCollector × Option Flow :=
  match dictLookup c.active_flows flow_id with
  | none => (c, none)
  | some fd =>
    let ended := monitorTerminalRecord fd success error tokens tools insights now
    let trace_entry : TraceRec :=
      { trace_id := ended.trace_id
        flow_id := flow_id
        type := FlowType.background_monitor
        name := "background_monitor_cycle_" ++ toString (ended.cycle.getD 0)
        status := if success then "success" else "error"
        startTime := ended.startTime
        endTime := now
        duration := now - ended.startTime
        spans := create_mock_spans ended (tools.getD []) }
    ({ c with
        traces := dequeAppend c.traces_limit c.traces trace_entry
        monitor_flows := dequeAppend c.monitor_flows_limit c.monitor_flows ended
        active_flows := dictErase c.active_flows flow_id },
      some ended)

/- `update_tokens(flow_id, input_tokens, output_tokens)`: additive update
of the active flow's counters; no-op when the flow is not active. -/
def update_tokens (c : TelemetryCollector) (flow_id : String)
    (input_tokens output_tokens : Int) : TelemetryCollector :=
  match dictLookup c.active_flows flow_id with
  | none => c
  | some fd =>
    { c with
      active_flows := dictInsert c.active_flows flow_id
        { fd with tokens :=
            { input := fd.tokens.input + input_tokens
              output := fd.tokens.output + output_tokens } } }

/- ===== Cost model (cost_visualizer.py) ===== -/

structure ModelPricing where
  input_cost_per_1m : ℚ
  output_cost_per_1m : ℚ
  context_window : Int
deriving DecidableEq

def CLAUDE_35_HAIKU_PRICING : ModelPricing :=
  { input_cost_per_1m := 0.25
    output_cost_per_1m := 1.25
    context_window := 200000 }

/- The view of a flow dict that `_calculate_flow_costs` reads: `Option`
models a possibly missing dict key.  In this repository a token dict, when
present, always carries both `input` and `output` (they are set together
at every write site), so `tokens` is `Option Tokens` rather than a pair of
options. -/
structure CostFlow where
  id : Option String
  duration : Option Int
  status : Option String
  tokens : Option Tokens
deriving DecidableEq

structure TokenCost where
  flow_id : String
  input_tokens : Int
  output_tokens : Int
  input_cost : ℚ
  output_cost : ℚ
  total_cost : ℚ
deriving DecidableEq

/- `_calculate_token_cost(input_tokens, output_tokens, flow_id)`. -/
def calculate_token_cost (pricing : ModelPricing) (input_tokens output_tokens : Int)
    (flow_id : String) : TokenCost :=
  let input_cost := ((input_tokens : ℚ) / 1000000) * pricing.input_cost_per_1m
  let output_cost := ((output_tokens : ℚ) / 1000000) * pricing.output_cost_per_1m
  { flow_id := flow_id
    input_tokens := input_tokens
    output_tokens := output_tokens
    input_cost := input_cost
    output_cost := output_cost
    total_cost := input_cost + output_cost }

structure FlowCost where
  id : Option String
  duration_seconds : ℚ
  status : Option String
  input_tokens : Int
  output_tokens : Int
  total_tokens : Int
  cost : ℚ
  input_cost : ℚ
  output_cost : ℚ
deriving DecidableEq

/- `flow.get('duration', 0) / 1000 if flow.get('duration') else 0`
(`None` and `0` are both falsy). -/
def durationSeconds (f : CostFlow) : ℚ :=
  match f.duration with
  | none => 0
  | some d => if d = 0 then 0 else (d : ℚ) / 1000

/- One iteration of the `for flow in flows` body of
`_calculate_flow_costs`: kind-specific token estimates are used only when
the flow has no `tokens` entry. -/
def flowCostOne (pricing : ModelPricing) (flow_type : String) (f : CostFlow) : FlowCost :=
  let estimated_input : Int := if flow_type == "agent" then 50000 else 30000
  let estimated_output : Int := if flow_type == "agent" then 2000 else 1500
  let input_tokens := match f.tokens with
    | none => estimated_input
    | some t => t.input
  let output_tokens := match f.tokens with
    | none => estimated_output
    | some t => t.output
  let cost_info := calculate_token_cost pricing input_tokens output_tokens (f.id.getD "unknown")
  { id := f.id
    duration_seconds := durationSeconds f
    status := f.status
    input_tokens := input_tokens
    output_tokens := output_tokens
    total_tokens := input_tokens + output_tokens
    cost := cost_info.total_cost
    input_cost := cost_info.input_cost
    output_cost := cost_info.output_cost }

structure FlowCostSummary where
  flow_count : Nat
  total_input_tokens : Int
  total_output_tokens : Int
  total_tokens : Int
  total_cost : ℚ
  average_cost_per_flow : ℚ
  flows : List FlowCost
deriving DecidableEq

/- `_calculate_flow_costs(flows, flow_type)`; `flows[-10:]` keeps the last
10 per-flow records. -/
def calculate_flow_costs (pricing : ModelPricing) (flows : List CostFlow)
    (flow_type : String) : FlowCostSummary :=
  if flows.isEmpty then
    { flow_count := 0
      total_input_tokens := 0
      total_output_tokens := 0
      total_tokens := 0
      total_cost := 0
      average_cost_per_flow := 0
      flows := [] }
  else
    let flow_costs := flows.map (flowCostOne pricing flow_type)
    let total_input := (flow_costs.map (fun fc => fc.input_tokens)).sum
    let total_output := (flow_costs.map (fun fc => fc.output_tokens)).sum
    let total_cost := (flow_costs.map (fun fc => fc.cost)).sum
    { flow_count := flows.length
      total_input_tokens := total_input
      total_output_tokens := total_output
      total_tokens := total_input + total_output
      total_cost := total_cost
      average_cost_per_flow := total_cost / (flows.length : ℚ)
      flows := flow_costs.drop (flow_costs.length - 10) }

/- The fields of the `_analyze_session_files` result that
`_calculate_cost_breakdown` reads. -/
structure SessionAnalysis where
  estimated_context_size : Option Int
  message_count : Option Int
deriving DecidableEq

structure SessionContextInfo where
  estimated_context_size : Int
  context_cost_per_call : ℚ
  message_count : Int
deriving DecidableEq

structure CostTotals where
  total_input_tokens : Int
  total_output_tokens : Int
  total_tokens : Int
  total_cost : ℚ
  average_cost_per_request : ℚ
deriving DecidableEq

structure CostBreakdown where
  agent_analysis : FlowCostSummary
  background_monitoring : FlowCostSummary
  session_context : SessionContextInfo
  totals : CostTotals
deriving DecidableEq

/- `_calculate_cost_breakdown(session_analysis, agent_flows, monitor_flows)`. -/
def calculate_cost_breakdown (pricing : ModelPricing) (session_analysis : SessionAnalysis)
    (agent_flows monitor_flows : List CostFlow) : CostBreakdown :=
  let agent_costs := calculate_flow_costs pricing agent_flows "agent"
  let monitor_costs := calculate_flow_costs pricing monitor_flows "monitor"
  let context_size := session_analysis.estimated_context_size.getD 30000
  let context_cost := calculate_token_cost pricing context_size 0 "context"
  let total_input_tokens := agent_costs.total_input_tokens + monitor_costs.total_input_tokens
  let total_output_tokens := agent_costs.total_output_tokens + monitor_costs.total_output_tokens
  let total_cost := agent_costs.total_cost + monitor_costs.total_cost
  { agent_analysis := agent_costs
    background_monitoring := monitor_costs
    session_context :=
      { estimated_context_size := context_size
        context_cost_per_call := context_cost.input_cost
        message_count := session_analysis.message_count.getD 0 }
    totals :=
      { total_input_tokens := total_input_tokens
        total_output_tokens := total_output_tokens
        total_tokens := total_input_tokens + total_output_tokens
        total_cost := total_cost
        average_cost_per_request :=
          total_cost / ((max (agent_flows.length + monitor_flows.length) 1 : Nat) : ℚ) } }

structure PeriodProjection where
  background_monitoring : ℚ
  agent_analysis : ℚ
  total_estimated : ℚ
deriving DecidableEq

structure SessionRotationSavings where
  cost_without_rotation : ℚ
  cost_with_rotation : ℚ
  savings_percentage : ℚ
deriving DecidableEq

structure Projections where
  hourly : PeriodProjection
  daily : PeriodProjection
  daily_session_rotations : ℚ
  monthly : PeriodProjection
  session_rotation_savings : SessionRotationSavings
deriving DecidableEq

/- `_calculate_no_rotation_cost`: 300,000-token context ceiling, charged
at the input rate, over 200 cycles. -/
def calculate_no_rotation_cost (pricing : ModelPricing) : ℚ :=
  let max_context : ℚ := 300000
  let cost_per_call_max := (max_context / 1000000) * pricing.input_cost_per_1m
  cost_per_call_max * 200

/- `_calculate_rotation_savings_percentage`: note the hardcoded
`cost_with_rotation = 50.0` ("Estimated current cost with rotation"); the
computed cost breakdown is not consulted. -/
def calculate_rotation_savings_percentage (pricing : ModelPricing) : ℚ :=
  let cost_without_rotation := calculate_no_rotation_cost pricing
  let cost_with_rotation : ℚ := 50.0
  if cost_without_rotation > 0 then
    ((cost_without_rotation - cost_with_rotation) / cost_without_rotation) * 100
  else 0

/- `_calculate_projections(cost_breakdown)`. -/
def calculate_projections (pricing : ModelPricing) (cost_breakdown : CostBreakdown) :
    Projections :=
  let monitor_cost_per_cycle := cost_breakdown.background_monitoring.average_cost_per_flow
  let cycles_per_hour : ℚ := 12
  let cycles_per_day : ℚ := 288
  let agent_cost_per_analysis := cost_breakdown.agent_analysis.average_cost_per_flow
  let estimated_analyses_per_day : ℚ := 10
  let session_rotations_per_day : ℚ := 1.4
  { hourly :=
      { background_monitoring := monitor_cost_per_cycle * cycles_per_hour
        agent_analysis := agent_cost_per_analysis * (estimated_analyses_per_day / 24)
        total_estimated := monitor_cost_per_cycle * cycles_per_hour
          + agent_cost_per_analysis * (estimated_analyses_per_day / 24) }
    daily :=
      { background_monitoring := monitor_cost_per_cycle * cycles_per_day
        agent_analysis := agent_cost_per_analysis * estimated_analyses_per_day
        total_estimated := monitor_cost_per_cycle * cycles_per_day
          + agent_cost_per_analysis * estimated_analyses_per_day }
    daily_session_rotations := session_rotations_per_day
    monthly :=
      { background_monitoring := monitor_cost_per_cycle * cycles_per_day * 30
        agent_analysis := agent_cost_per_analysis * estimated_analyses_per_day * 30
        total_estimated := (monitor_cost_per_cycle * cycles_per_day
          + agent_cost_per_analysis * estimated_analyses_per_day) * 30 }
    session_rotation_savings :=
      { cost_without_rotation := calculate_no_rotation_cost pricing
        cost_with_rotation := cost_breakdown.totals.total_cost
        savings_percentage := calculate_rotation_savings_percentage pricing } }

/- Following the words of claim C9 (and spec §4.2): the savings percentage
the specification describes, comparing the no-rotation cost against the
actual rotation-bounded total cost taken from the computed cost breakdown.
Kept separate from the source-derived definitions above so the two can be
compared. -/
def claimed_savings_percentage (pricing : ModelPricing) (actual_total_cost : ℚ) : ℚ :=
  let cost_without_rotation := calculate_no_rotation_cost pricing
  if cost_without_rotation > 0 then
    ((cost_without_rotation - actual_total_cost) / cost_without_rotation) * 100
  else 0

/- ===== Occurrence counting and operation sequences (for the lifecycle
invariant) ===== -/

/- Number of active-table entries whose key is `id`. -/
def countKeys (d : List (String × Flow)) (id : String) : Nat :=
  (d.filter (fun p => p.1 == id)).length

/- Number of completed records whose flow id is `id`. -/
def countFlows (l : List Flow) (id : String) : Nat :=
  (l.filter (fun f => f.id == id)).length

/- Total number of places the flow id occurs across the active table and
the two completed sequences. -/
def countIn (c : TelemetryCollector) (id : String) : Nat :=
  countKeys c.active_flows id + countFlows c.agent_flows id + countFlows c.monitor_flows id

/- The four ledger operations named by the lifecycle claim. -/
inductive LedgerOp
  | startAgent (flow_id request : String) (now : Int)
  | startMonitor (cycle : Int) (now : Int)
  | endAgent (flow_id : String) (success : Bool) (error : Option String)
      (tokens : Option Tokens) (tools : Option (List ToolCall)) (now : Int)
  | endMonitor (flow_id : String) (success : Bool) (error : Option String)
      (tokens : Option Tokens) (tools : Option (List ToolCall))
      (insights : Option Insights) (now : Int)

def applyOp (c : TelemetryCollector) : LedgerOp → TelemetryCollector
  | LedgerOp.startAgent fid req now => (start_agent_flow c fid req now).1
  | LedgerOp.startMonitor cycle now => (start_monitor_flow c cycle now).1
  | LedgerOp.endAgent fid success error tokens tools now =>
      (end_agent_flow c fid success error tokens tools now).1
  | LedgerOp.endMonitor fid success error tokens tools insights now =>
      (end_monitor_flow c fid success error tokens tools insights now).1

/- A start is fresh when its flow id is nowhere in the ledger; the spec
documents caller-supplied id collisions as out-of-contract (§4.1, §9). -/
def opFresh (c : TelemetryCollector) : LedgerOp → Bool
  | LedgerOp.startAgent fid _ _ => countIn c fid == 0
  | LedgerOp.startMonitor cycle now => countIn c (monitorFlowId cycle now) == 0
  | _ => true

def freshRun : TelemetryCollector → List LedgerOp → Bool
  | _, [] => true
  | c, op :: ops => opFresh c op && freshRun (applyOp c op) ops

/- ===== Helper lemmas: bounded-deque behaviour ===== -/

theorem dequeAppend_drop {α : Type} (cap : Nat) (acc : List α) (x : α) :
    dequeAppend cap (acc.drop (acc.length - cap)) x
      = (acc ++ [x]).drop (acc.length + 1 - cap) := by
  unfold dequeAppend
  rw [List.length_drop]
  rw [List.drop_append_eq_append_drop, List.drop_append_eq_append_drop, List.drop_drop]
  congr 1
  · congr 1
    omega
  · congr 1
    rw [List.length_drop]
    omega

theorem foldl_dequeAppend {α : Type} (cap : Nat) :
    ∀ (xs acc : List α),
      xs.foldl (dequeAppend cap) (acc.drop (acc.length - cap))
        = (acc ++ xs).drop ((acc ++ xs).length - cap) := by
  intro xs
  induction xs with
  | nil => intro acc; simp
  | cons x xs ih =>
    intro acc
    rw [List.foldl_cons, dequeAppend_drop]
    have e : acc ++ x :: xs = (acc ++ [x]) ++ xs := by simp
    rw [e]
    have e2 : (acc ++ [x]).length - cap = acc.length + 1 - cap := by simp
    rw [← e2]
    exact ih (acc ++ [x])

theorem foldl_dequeAppend_nil {α : Type} (cap : Nat) (xs : List α) :
    xs.foldl (dequeAppend cap) [] = xs.drop (xs.length - cap) := by
  have h := foldl_dequeAppend cap xs []
  simpa using h

/-- C1: each of the three bounded sequences is maintained by
`dequeAppend` with its configured capacity; inserting `N > capacity`
entries into an empty sequence leaves exactly `capacity` entries, namely
the `capacity` most recent ones in insertion order (the oldest having been
evicted first), and a collector constructed with no configuration
settings gets the default capacities 50 (agent flows), 100 (monitor
flows) and 200 (traces). -/
theorem C1_capacity_fifo_defaults {α : Type} (cap : Nat) (xs : List α)
    (h : cap < xs.length) :
    (xs.foldl (dequeAppend cap) []).length = cap
    ∧ xs.foldl (dequeAppend cap) [] = xs.drop (xs.length - cap)
    ∧ (TelemetryCollector.init none none none).agent_flows_limit = 50
    ∧ (TelemetryCollector.init none none none).monitor_flows_limit = 100
    ∧ (TelemetryCollector.init none none none).traces_limit = 200 := by
  refine ⟨?_, foldl_dequeAppend_nil cap xs, rfl, rfl, rfl⟩
  rw [foldl_dequeAppend_nil cap xs, List.length_drop]
  omega

/-- Witness for C1 at capacity 2 and three inserted entries. -/
theorem C1_capacity_fifo_defaults_witness :
    2 < ([10, 20, 30] : List Nat).length
    ∧ ((([10, 20, 30] : List Nat).foldl (dequeAppend 2) []).length = 2
       ∧ ([10, 20, 30] : List Nat).foldl (dequeAppend 2) []
           = ([10, 20, 30] : List Nat).drop (([10, 20, 30] : List Nat).length - 2)
       ∧ (TelemetryCollector.init none none none).agent_flows_limit = 50
       ∧ (TelemetryCollector.init none none none).monitor_flows_limit = 100
       ∧ (TelemetryCollector.init none none none).traces_limit = 200) :=
  ⟨by decide, C1_capacity_fifo_defaults 2 [10, 20, 30] (by decide)⟩

/- ===== Helper lemmas: unfolding the end-flow operations ===== -/

theorem end_agent_flow_none (c : TelemetryCollector) (fid : String) (success : Bool)
    (error : Option String) (tokens : Option Tokens) (tools : Option (List ToolCall))
    (now : Int) (h : dictLookup c.active_flows fid = none) :
    end_agent_flow c fid success error tokens tools now = (c, none) := by
  unfold end_agent_flow
  rw [h]

theorem end_monitor_flow_none (c : TelemetryCollector) (fid : String) (success : Bool)
    (error : Option String) (tokens : Option Tokens) (tools : Option (List ToolCall))
    (insights : Option Insights) (now : Int)
    (h : dictLookup c.active_flows fid = none) :
    end_monitor_flow c fid success error tokens tools insights now = (c, none) := by
  unfold end_monitor_flow
  rw [h]

theorem end_agent_flow_some (c : TelemetryCollector) (fid : String) (fd : Flow)
    (success : Bool) (error : Option String) (tokens : Option Tokens)
    (tools : Option (List ToolCall)) (now : Int)
    (h : dictLookup c.active_flows fid = some fd) :
    end_agent_flow c fid success error tokens tools now
      = ({ c with
            traces := dequeAppend c.traces_limit c.traces
              { trace_id := (agentTerminalRecord fd success error tokens tools now).trace_id
                flow_id := fid
                type := FlowType.agent_analysis
                name := "agent_analysis_" ++ fid
                status := if success then "success" else "error"
                startTime := fd.startTime
                endTime := now
                duration := now - fd.startTime
                spans := create_mock_spans (agentTerminalRecord fd success error tokens tools now)
                  (tools.getD []) }
            agent_flows := dequeAppend c.agent_flows_limit c.agent_flows
              (agentTerminalRecord fd success error tokens tools now)
            active_flows := dictErase c.active_flows fid },
         some (agentTerminalRecord fd success error tokens tools now)) := by
  unfold end_agent_flow
  rw [h]
  rfl

theorem end_monitor_flow_some (c : TelemetryCollector) (fid : String) (fd : Flow)
    (success : Bool) (error : Option String) (tokens : Option Tokens)
    (tools : Option (List ToolCall)) (insights : Option Insights) (now : Int)
    (h : dictLookup c.active_flows fid = some fd) :
    end_monitor_flow c fid success error tokens tools insights now
      = ({ c with
            traces := dequeAppend c.traces_limit c.traces
              { trace_id := (monitorTerminalRecord fd success error tokens tools insights now).trace_id
                flow_id := fid
                type := FlowType.background_monitor
                name := "background_monitor_cycle_"
                  ++ toString ((monitorTerminalRecord fd success error tokens tools insights now).cycle.getD 0)
                status := if success then "success" else "error"
                startTime := fd.startTime
                endTime := now
                duration := now - fd.startTime
                spans := create_mock_spans
                  (monitorTerminalRecord fd success error tokens tools insights now) (tools.getD []) }
            monitor_flows := dequeAppend c.monitor_flows_limit c.monitor_flows
              (monitorTerminalRecord fd success error tokens tools insights now)
            active_flows := dictErase c.active_flows fid },
         some (monitorTerminalRecord fd success error tokens tools insights now)) := by
  unfold end_monitor_flow
  rw [h]
  rfl

/-- C3: ending a flow id that is not in the active table — via either
`end_agent_flow` or `end_monitor_flow` — returns the not-found sentinel
`none` and returns the collector state unchanged (active table, both
completed sequences and the trace archive included). -/
theorem C3_not_found_noop (c : TelemetryCollector) (fid : String) (success : Bool)
    (error : Option String) (tokens : Option Tokens) (tools : Option (List ToolCall))
    (insights : Option Insights) (now : Int)
    (h : dictLookup c.active_flows fid = none) :
    end_agent_flow c fid success error tokens tools now = (c, none)
    ∧ end_monitor_flow c fid success error tokens tools insights now = (c, none) :=
  ⟨end_agent_flow_none c fid success error tokens tools now h,
   end_monitor_flow_none c fid success error tokens tools insights now h⟩

/-- Witness for C3: ending `"nonexistent"` on a fresh collector. -/
theorem C3_not_found_noop_witness :
    end_agent_flow (TelemetryCollector.init none none none) "nonexistent" true none none none 0
      = (TelemetryCollector.init none none none, none)
    ∧ end_monitor_flow (TelemetryCollector.init none none none) "nonexistent" true none none none
        none 0
      = (TelemetryCollector.init none none none, none) :=
  C3_not_found_noop (TelemetryCollector.init none none none) "nonexistent" true none none none
    none 0 (by rfl)

/-- C4: start agent flow `"a1"`, accumulate `update_tokens("a1",100,0)`
then `update_tokens("a1",0,50)` (the active record then carries
`{input:100, output:50}`), and end with explicit
`tokens = {input:5000, output:200}`: the terminal record carries exactly
the supplied end-time values — they replace, and are not merged with, the
accumulated counts — and status `"completed"`. -/
theorem C4_explicit_tokens_replace :
    (let c1 := (start_agent_flow (TelemetryCollector.init none none none) "a1" "analyze" 0).1
     let c3 := update_tokens (update_tokens c1 "a1" 100 0) "a1" 0 50
     let r := (end_agent_flow c3 "a1" true none
       (some { input := 5000, output := 200 }) none 60000).2
     (dictLookup c3.active_flows "a1").map Flow.tokens
        = some { input := 100, output := 50 }
     ∧ r.map Flow.tokens = some { input := 5000, output := 200 }
     ∧ r.map Flow.status = some FlowStatus.completed) := by
  refine ⟨rfl, rfl, rfl⟩

/-- C10: for any active flow — whatever token counts `update_tokens` has
accumulated on it — ending it with the `tokens` argument omitted (`None`)
freezes the terminal record's tokens at `{input:0, output:0}`; the
accumulated counts are discarded, for both `end_agent_flow` and
`end_monitor_flow`. -/
theorem C10_omitted_tokens_zero (c : TelemetryCollector) (fid : String) (fd : Flow)
    (success : Bool) (error : Option String) (tools : Option (List ToolCall))
    (insights : Option Insights) (now : Int)
    (h : dictLookup c.active_flows fid = some fd) :
    ((end_agent_flow c fid success error none tools now).2).map Flow.tokens
      = some { input := 0, output := 0 }
    ∧ ((end_monitor_flow c fid success error none tools insights now).2).map Flow.tokens
      = some { input := 0, output := 0 } := by
  rw [end_agent_flow_some c fid fd success error none tools now h,
    end_monitor_flow_some c fid fd success error none tools insights now h]
  exact ⟨rfl, rfl⟩

/-- Witness for C10: a flow with accumulated tokens `{100, 50}` ended with
`tokens = None` comes out with `{0, 0}`. -/
theorem C10_omitted_tokens_zero_witness :
    ((end_agent_flow
        (update_tokens
          (start_agent_flow (TelemetryCollector.init none none none) "a1" "q" 0).1 "a1" 100 50)
        "a1" true none none none 9000).2).map Flow.tokens
      = some { input := 0, output := 0 }
    ∧ ((end_monitor_flow
        (update_tokens
          (start_agent_flow (TelemetryCollector.init none none none) "a1" "q" 0).1 "a1" 100 50)
        "a1" true none none none none 9000).2).map Flow.tokens
      = some { input := 0, output := 0 } :=
  C10_omitted_tokens_zero
    (update_tokens
      (start_agent_flow (TelemetryCollector.init none none none) "a1" "q" 0).1 "a1" 100 50)
    "a1"
    { id := "a1", type := FlowType.agent_analysis, status := FlowStatus.running,
      startTime := 0, endTime := none, duration := none, request := some "q", cycle := none,
      tokens := { input := 100, output := 50 }, tools := [], insights := none, error := none,
      trace_id := "mock-trace-a1" }
    true none none none 9000 (by rfl)

/-- C5 counterexample: `end_monitor_flow` with `success = True` and an
error text containing the substring `"timeout"` produces status
`"completed"`, not `"timeout"` — the claimed "timeout specifically when
the supplied error text contains the substring" does not hold on
successful completion, because the code tests `success` first. -/
theorem C5_timeout_counterexample :
    (let c1 := (start_monitor_flow (TelemetryCollector.init none none none) 1 0).1
     let r := (end_monitor_flow c1 (monitorFlowId 1 0) true (some "connection timeout")
       none none none 5000).2
     strHasSub "connection timeout" "timeout" = true
     ∧ r.map Flow.status = some FlowStatus.completed
     ∧ r.map Flow.status ≠ some FlowStatus.timeout) := by
  refine ⟨rfl, rfl, by decide⟩

/-- C5 (amended): for every active monitor flow, `end_monitor_flow`
assigns terminal status `"completed"` when `success` is true; otherwise
`"timeout"` when the supplied error text contains the substring
`"timeout"`, and `"error"` when it does not.  (The `success` test takes
precedence over the timeout-substring test.) -/
theorem C5_timeout_status (c : TelemetryCollector) (fid : String) (fd : Flow)
    (success : Bool) (error : Option String) (tokens : Option Tokens)
    (tools : Option (List ToolCall)) (insights : Option Insights) (now : Int)
    (h : dictLookup c.active_flows fid = some fd) :
    ((end_monitor_flow c fid success error tokens tools insights now).2).map Flow.status
      = some (if success then FlowStatus.completed
              else if strHasSub (error.getD "") "timeout" then FlowStatus.timeout
              else FlowStatus.error) := by
  rw [end_monitor_flow_some c fid fd success error tokens tools insights now h]
  rfl

/-- Witness for C5: a failed monitor cycle whose error text contains
`"timeout"` gets status `"timeout"`. -/
theorem C5_timeout_status_witness :
    ((end_monitor_flow (start_monitor_flow (TelemetryCollector.init none none none) 1 0).1
        (monitorFlowId 1 0) false (some "cycle timeout after 20m") none none none 5000).2).map
        Flow.status
      = some (if false then FlowStatus.completed
              else if strHasSub ((some "cycle timeout after 20m").getD "") "timeout" then
                FlowStatus.timeout
              else FlowStatus.error) :=
  C5_timeout_status (start_monitor_flow (TelemetryCollector.init none none none) 1 0).1
    (monitorFlowId 1 0)
    { id := monitorFlowId 1 0, type := FlowType.background_monitor,
      status := FlowStatus.running, startTime := 0, endTime := none, duration := none,
      request := none, cycle := some 1,
      tokens := { input := 0, output := 0 }, tools := [],
      insights := some { anomalies := 0, warnings := 0, recommendations := 0 }, error := none,
      trace_id := "mock-trace-" ++ monitorFlowId 1 0 }
    false (some "cycle timeout after 20m") none none none 5000 (by rfl)

/- ===== Span contiguity ===== -/

/- `chainedFrom t l`: the spans in `l` are contiguous — the first starts
at `t` and each subsequent span starts where its predecessor ended. -/
def chainedFrom : Int → List Span → Bool
  | _, [] => true
  | t, s :: rest => (s.start_time == t) && chainedFrom s.end_time rest

theorem chainedFrom_tool_spans (fid : String) :
    ∀ (ts : List ToolCall) (i : Nat) (cur : Int) (tail : List Span),
      chainedFrom (toolsEnd cur ts) tail = true →
      chainedFrom cur (tool_spans fid i cur ts ++ tail) = true := by
  intro ts
  induction ts with
  | nil =>
    intro i cur tail h
    simpa [tool_spans, toolsEnd] using h
  | cons t ts ih =>
    intro i cur tail h
    simp only [tool_spans, List.cons_append, chainedFrom, Bool.and_eq_true, beq_self_eq_true,
      true_and]
    exact ih (i + 1) (cur + toolDuration t) tail (by simpa [toolsEnd] using h)

theorem getLast?_cons_cons_append_pair (a b p q : Span) (A : List Span) :
    (a :: b :: (A ++ [p, q])).getLast? = some q := by
  rw [show a :: b :: (A ++ [p, q]) = ((a :: b :: A) ++ [p]) ++ [q] by simp]
  exact List.getLast?_concat _

/-- C6: for every completed flow (one whose `endTime` is set), the spans
synthesized by `_create_mock_spans` cover the flow exactly: the first
span's `start_time` is the flow's `start_time`, the last span's
`end_time` is the flow's `end_time`, and the spans are contiguous — each
span's `start_time` equals the previous span's `end_time`
(`chainedFrom` anchored at the flow's `start_time`). -/
theorem C6_span_coverage (fd : Flow) (tools : List ToolCall) (te : Int)
    (h : fd.endTime = some te) :
    (create_mock_spans fd tools).head?.map Span.start_time = some fd.startTime
    ∧ (create_mock_spans fd tools).getLast?.map Span.end_time = some te
    ∧ chainedFrom fd.startTime (create_mock_spans fd tools) = true := by
  refine ⟨rfl, ?_, ?_⟩
  · rw [show create_mock_spans fd tools
        = ({ span_id := "span-init-" ++ fd.id, name := "initialization",
             start_time := fd.startTime, end_time := fd.startTime + 500, duration := 500,
             status := "success" } ::
           { span_id := "span-llm-" ++ fd.id, name := "llm_execution",
             start_time := fd.startTime + 500,
             end_time := fd.startTime + 500 + max (fd.duration.getD 10000 - 2000) 5000,
             duration := max (fd.duration.getD 10000 - 2000) 5000, status := "success" } ::
           (tool_spans fd.id 0 (fd.startTime + 500 + max (fd.duration.getD 10000 - 2000) 5000)
              tools ++
            [{ span_id := "span-processing-" ++ fd.id, name := "response_processing",
               start_time := toolsEnd
                 (fd.startTime + 500 + max (fd.duration.getD 10000 - 2000) 5000) tools,
               end_time := toolsEnd
                 (fd.startTime + 500 + max (fd.duration.getD 10000 - 2000) 5000) tools + 300,
               duration := 300, status := "success" },
             { span_id := "span-complete-" ++ fd.id, name := "completion",
               start_time := toolsEnd
                 (fd.startTime + 500 + max (fd.duration.getD 10000 - 2000) 5000) tools + 300,
               end_time := fd.endTime.getD fd.startTime, duration := 100,
               status := fd.status.str }])) from rfl]
    rw [getLast?_cons_cons_append_pair]
    simp [h]
  · rw [create_mock_spans]
    simp only [chainedFrom, Bool.and_eq_true, beq_self_eq_true, true_and]
    refine chainedFrom_tool_spans fd.id tools 0 _ _ ?_
    simp [chainedFrom]

/-- Witness for C6: a completed flow of 12000 ms with one tool call. -/
theorem C6_span_coverage_witness :
    (create_mock_spans
        { id := "w", type := FlowType.agent_analysis, status := FlowStatus.completed,
          startTime := 0, endTime := some 12000, duration := some 12000, request := none,
          cycle := none, tokens := { input := 0, output := 0 }, tools := [], insights := none,
          error := none, trace_id := "mock-trace-w" }
        [{ name := "kubectl", duration := some 700 }]).head?.map Span.start_time = some 0
    ∧ (create_mock_spans
        { id := "w", type := FlowType.agent_analysis, status := FlowStatus.completed,
          startTime := 0, endTime := some 12000, duration := some 12000, request := none,
          cycle := none, tokens := { input := 0, output := 0 }, tools := [], insights := none,
          error := none, trace_id := "mock-trace-w" }
        [{ name := "kubectl", duration := some 700 }]).getLast?.map Span.end_time = some 12000
    ∧ chainedFrom 0 (create_mock_spans
        { id := "w", type := FlowType.agent_analysis, status := FlowStatus.completed,
          startTime := 0, endTime := some 12000, duration := some 12000, request := none,
          cycle := none, tokens := { input := 0, output := 0 }, tools := [], insights := none,
          error := none, trace_id := "mock-trace-w" }
        [{ name := "kubectl", duration := some 700 }]) = true :=
  C6_span_coverage
    { id := "w", type := FlowType.agent_analysis, status := FlowStatus.completed,
      startTime := 0, endTime := some 12000, duration := some 12000, request := none,
      cycle := none, tokens := { input := 0, output := 0 }, tools := [], insights := none,
      error := none, trace_id := "mock-trace-w" }
    [{ name := "kubectl", duration := some 700 }] 12000 (by rfl)

/-- C7: per-flow cost is `input_tokens / 1,000,000 × input rate +
output_tokens / 1,000,000 × output rate`; consequently doubling both
token counts exactly doubles the total cost (linearity), and under the
static Claude 3.5 Haiku pricing (`$0.25/1M` in, `$1.25/1M` out) a flow
with 1,000,000 input and 1,000,000 output tokens costs exactly `$1.50`. -/
theorem C7_cost_linear (pricing : ModelPricing) (input_tokens output_tokens : Int)
    (fid : String) :
    (calculate_token_cost pricing input_tokens output_tokens fid).total_cost
      = ((input_tokens : ℚ) / 1000000) * pricing.input_cost_per_1m
        + ((output_tokens : ℚ) / 1000000) * pricing.output_cost_per_1m
    ∧ (calculate_token_cost pricing (2 * input_tokens) (2 * output_tokens) fid).total_cost
      = 2 * (calculate_token_cost pricing input_tokens output_tokens fid).total_cost
    ∧ (calculate_token_cost CLAUDE_35_HAIKU_PRICING 1000000 1000000 "f").total_cost
      = 1.5 := by
  refine ⟨rfl, ?_, by norm_num [calculate_token_cost, CLAUDE_35_HAIKU_PRICING]⟩
  simp only [calculate_token_cost]
  push_cast
  ring

/-- C8: a flow with no recorded `tokens` entry is costed from the
kind-specific default estimates (50,000 in / 2,000 out for agent analysis
flows, 30,000 in / 1,500 out for monitor flows), while a flow with a
recorded `tokens` entry is costed from those recorded counts, for any
flow kind; and flows created by the ledger always carry tokens
set at creation to `{input:0, output:0}`. -/
theorem C8_token_fallbacks (f : CostFlow) :
    (f.tokens = none →
      (calculate_flow_costs CLAUDE_35_HAIKU_PRICING [f] "agent").total_input_tokens = 50000
      ∧ (calculate_flow_costs CLAUDE_35_HAIKU_PRICING [f] "agent").total_output_tokens = 2000
      ∧ (calculate_flow_costs CLAUDE_35_HAIKU_PRICING [f] "monitor").total_input_tokens = 30000
      ∧ (calculate_flow_costs CLAUDE_35_HAIKU_PRICING [f] "monitor").total_output_tokens = 1500)
    ∧ (∀ t : Tokens, f.tokens = some t → ∀ ft : String,
        (calculate_flow_costs CLAUDE_35_HAIKU_PRICING [f] ft).total_input_tokens = t.input
        ∧ (calculate_flow_costs CLAUDE_35_HAIKU_PRICING [f] ft).total_output_tokens = t.output)
    ∧ (∀ (c : TelemetryCollector) (fid req : String) (now : Int),
        (start_agent_flow c fid req now).2.tokens = { input := 0, output := 0 })
    ∧ (∀ (c : TelemetryCollector) (cycle : Int) (now : Int),
        (start_monitor_flow c cycle now).2.tokens = { input := 0, output := 0 }) := by
  refine ⟨?_, ?_, fun _ _ _ _ => rfl, fun _ _ _ => rfl⟩
  · intro h
    simp [calculate_flow_costs, flowCostOne, h]
  · intro t h ft
    simp [calculate_flow_costs, flowCostOne, h]

/-- Witness for C8: the fallback estimates at a token-less flow and the
recorded counts at a flow with `tokens = {input:7, output:9}`. -/
theorem C8_token_fallbacks_witness :
    (calculate_flow_costs CLAUDE_35_HAIKU_PRICING
        [{ id := none, duration := none, status := none, tokens := none }]
        "agent").total_input_tokens = 50000
    ∧ (calculate_flow_costs CLAUDE_35_HAIKU_PRICING
        [{ id := none, duration := none, status := none,
           tokens := some { input := 7, output := 9 } }] "agent").total_input_tokens = 7 :=
  ⟨((C8_token_fallbacks
      { id := none, duration := none, status := none, tokens := none }).1 rfl).1,
   ((C8_token_fallbacks
      { id := none, duration := none, status := none,
        tokens := some { input := 7, output := 9 } }).2.1
      { input := 7, output := 9 } rfl "agent").1⟩

/-- C9 counterexample: with the static pricing the no-rotation cost is
`$15`; on a cost breakdown whose actual total cost is `$0` (no flows) the
claim's formula would give a savings percentage of `100`, but the code
reports `-700/3` (≈ −233%), because
`_calculate_rotation_savings_percentage` uses a hardcoded
`cost_with_rotation = 50.0` instead of the breakdown's total. -/
theorem C9_savings_counterexample :
    (let bd := calculate_cost_breakdown CLAUDE_35_HAIKU_PRICING
        { estimated_context_size := none, message_count := none } [] []
     bd.totals.total_cost = 0
     ∧ (calculate_projections CLAUDE_35_HAIKU_PRICING
          bd).session_rotation_savings.savings_percentage = -700 / 3
     ∧ claimed_savings_percentage CLAUDE_35_HAIKU_PRICING bd.totals.total_cost = 100
     ∧ (calculate_projections CLAUDE_35_HAIKU_PRICING
          bd).session_rotation_savings.savings_percentage
        ≠ claimed_savings_percentage CLAUDE_35_HAIKU_PRICING bd.totals.total_cost) := by
  refine ⟨?_, ?_, ?_, ?_⟩
  · norm_num [calculate_cost_breakdown, calculate_flow_costs]
  · norm_num [calculate_projections, calculate_rotation_savings_percentage,
      calculate_no_rotation_cost, CLAUDE_35_HAIKU_PRICING]
  · norm_num [claimed_savings_percentage, calculate_no_rotation_cost,
      calculate_cost_breakdown, calculate_flow_costs, CLAUDE_35_HAIKU_PRICING]
  · norm_num [calculate_projections, calculate_rotation_savings_percentage,
      claimed_savings_percentage, calculate_no_rotation_cost,
      calculate_cost_breakdown, calculate_flow_costs, CLAUDE_35_HAIKU_PRICING]

/-- C9 (amended): the session-rotation-savings projection reports the
no-rotation cost as a 300,000-token context ceiling over 200 cycles
charged at the input rate, and reports the breakdown's actual total cost
in its `cost_with_rotation` field; but its `savings_percentage` compares
the no-rotation cost against a hardcoded `$50.0` estimate rather than the
computed breakdown total — under the static pricing it is the constant
`-700/3` regardless of the breakdown. -/
theorem C9_savings_fields (pricing : ModelPricing) (bd : CostBreakdown) :
    (calculate_projections pricing bd).session_rotation_savings.cost_without_rotation
      = ((300000 : ℚ) / 1000000) * pricing.input_cost_per_1m * 200
    ∧ (calculate_projections pricing bd).session_rotation_savings.cost_with_rotation
      = bd.totals.total_cost
    ∧ (calculate_projections pricing bd).session_rotation_savings.savings_percentage
      = (if calculate_no_rotation_cost pricing > 0 then
          ((calculate_no_rotation_cost pricing - 50) / calculate_no_rotation_cost pricing) * 100
         else 0)
    ∧ (calculate_projections CLAUDE_35_HAIKU_PRICING bd).session_rotation_savings.savings_percentage
      = -700 / 3 := by
  refine ⟨rfl, rfl, ?_, ?_⟩
  · simp only [calculate_projections, calculate_rotation_savings_percentage]
    norm_num
  · norm_num [calculate_projections, calculate_rotation_savings_percentage,
      calculate_no_rotation_cost, CLAUDE_35_HAIKU_PRICING]

/-- C2 counterexample: the exclusivity invariant fails when a caller
reuses a flow id (spec §4.1/§9 call this out as an unenforced caller
contract): after `start_agent_flow("x")`, `end_agent_flow("x")`,
`start_agent_flow("x")` the id `"x"` is simultaneously in the active
table and in the completed agent sequence — present in two of the three
places at once. -/
theorem C2_exclusivity_counterexample :
    (let c := applyOp (applyOp (applyOp (TelemetryCollector.init none none none)
        (LedgerOp.startAgent "x" "q" 0))
        (LedgerOp.endAgent "x" true none none none 1000))
        (LedgerOp.startAgent "x" "q" 2000)
     countKeys c.active_flows "x" = 1
     ∧ countFlows c.agent_flows "x" = 1
     ∧ countIn c "x" = 2) := by
  exact ⟨rfl, rfl, rfl⟩

/- ===== Helper lemmas: occurrence counting ===== -/

theorem countKeys_append (d₁ d₂ : List (String × Flow)) (id : String) :
    countKeys (d₁ ++ d₂) id = countKeys d₁ id + countKeys d₂ id := by
  simp [countKeys, List.filter_append]

theorem countKeys_single (k : String) (v : Flow) (id : String) :
    countKeys [(k, v)] id = if k = id then 1 else 0 := by
  by_cases h : k = id <;> simp [countKeys, List.filter_cons, h]

theorem any_key_eq_false (d : List (String × Flow)) (k : String)
    (h : countKeys d k = 0) : d.any (fun p => p.1 == k) = false := by
  rw [List.any_eq_false]
  intro p hp hpk
  have hmem : p ∈ d.filter (fun q => q.1 == k) := List.mem_filter.mpr ⟨hp, hpk⟩
  unfold countKeys at h
  rw [List.length_eq_zero] at h
  rw [h] at hmem
  exact absurd hmem (List.not_mem_nil p)

theorem dictInsert_fresh (d : List (String × Flow)) (k : String) (v : Flow)
    (h : countKeys d k = 0) : dictInsert d k v = d ++ [(k, v)] := by
  simp [dictInsert, any_key_eq_false d k h]

theorem countKeys_erase_self (d : List (String × Flow)) (k : String) :
    countKeys (dictErase d k) k = 0 := by
  unfold countKeys dictErase
  rw [List.filter_filter]
  simp

theorem countKeys_erase_ne (d : List (String × Flow)) (k id : String) (h : id ≠ k) :
    countKeys (dictErase d k) id = countKeys d id := by
  unfold countKeys dictErase
  rw [List.filter_filter]
  congr 1
  apply List.filter_congr
  intro a _
  by_cases ha : a.1 = id
  · simp [ha, h]
  · simp [ha]

theorem dictLookup_erase_self (d : List (String × Flow)) (k : String) :
    dictLookup (dictErase d k) k = none := by
  unfold dictLookup
  rw [List.find?_eq_none.mpr]
  · rfl
  · intro p hp
    have := (List.mem_filter.mp hp).2
    simp only [Bool.not_eq_true'] at this
    simp [this]

theorem countFlows_append (l₁ l₂ : List Flow) (id : String) :
    countFlows (l₁ ++ l₂) id = countFlows l₁ id + countFlows l₂ id := by
  simp [countFlows, List.filter_append]

theorem countFlows_single (x : Flow) (id : String) :
    countFlows [x] id = if x.id = id then 1 else 0 := by
  by_cases h : x.id = id <;> simp [countFlows, List.filter_cons, h]

theorem countFlows_drop_le (l : List Flow) (n : Nat) (id : String) :
    countFlows (l.drop n) id ≤ countFlows l id := by
  conv_rhs => rw [← List.take_append_drop n l]
  rw [countFlows_append]
  omega

theorem countFlows_dequeAppend_le (cap : Nat) (l : List Flow) (x : Flow) (id : String) :
    countFlows (dequeAppend cap l x) id
      ≤ countFlows l id + (if x.id = id then 1 else 0) := by
  unfold dequeAppend
  calc countFlows ((l ++ [x]).drop (l.length + 1 - cap)) id
      ≤ countFlows (l ++ [x]) id := countFlows_drop_le _ _ _
    _ = countFlows l id + countFlows [x] id := countFlows_append _ _ _
    _ = countFlows l id + (if x.id = id then 1 else 0) := by rw [countFlows_single]

theorem dictLookup_some_mem (d : List (String × Flow)) (k : String) (fd : Flow)
    (h : dictLookup d k = some fd) : ∃ p ∈ d, p.1 = k ∧ p.2 = fd := by
  unfold dictLookup at h
  cases hf : d.find? (fun p => p.1 == k) with
  | none => rw [hf] at h; cases h
  | some p =>
    rw [hf] at h
    simp only [Option.map_some', Option.some.injEq] at h
    have hpk : p.1 = k := by
      have h2 := List.find?_some hf
      simpa using h2
    exact ⟨p, List.mem_of_find?_eq_some hf, hpk, h⟩

theorem countKeys_pos_of_lookup (d : List (String × Flow)) (k : String) (fd : Flow)
    (h : dictLookup d k = some fd) : 1 ≤ countKeys d k := by
  obtain ⟨p, hmem, hp1, _⟩ := dictLookup_some_mem d k fd h
  have : p ∈ d.filter (fun q => q.1 == k) :=
    List.mem_filter.mpr ⟨hmem, by simp [hp1]⟩
  unfold countKeys
  have := List.length_pos.mpr (List.ne_nil_of_mem this)
  omega

/- ===== Lifecycle invariant ===== -/

/- Every active-table entry's key is the stored flow's own id (maintained
by construction: the start operations store the flow under its id). -/
def KeysMatch (c : TelemetryCollector) : Prop :=
  ∀ p ∈ c.active_flows, p.2.id = p.1

/- The lifecycle invariant: active keys match ids, and every flow id
occurs at most once across the active table and the two completed
sequences. -/
def Inv (c : TelemetryCollector) : Prop :=
  KeysMatch c ∧ ∀ id, countIn c id ≤ 1

theorem inv_init (a m t : Option Nat) : Inv (TelemetryCollector.init a m t) := by
  constructor
  · intro p hp
    simp [TelemetryCollector.init] at hp
  · intro id
    simp [TelemetryCollector.init, countIn, countKeys, countFlows]

theorem inv_insert_fresh (c : TelemetryCollector) (fid : String) (fd : Flow)
    (hid : fd.id = fid) (hI : Inv c) (hf : countIn c fid = 0) :
    Inv { c with active_flows := dictInsert c.active_flows fid fd } := by
  obtain ⟨hK, hC⟩ := hI
  have hk0 : countKeys c.active_flows fid = 0 := by
    unfold countIn at hf
    omega
  rw [dictInsert_fresh c.active_flows fid fd hk0]
  constructor
  · intro p hp
    rcases List.mem_append.mp hp with h | h
    · exact hK p h
    · rw [List.mem_singleton.mp h]
      exact hid
  · intro id
    have hc := hC id
    unfold countIn at hf hc ⊢
    simp only [countKeys_append, countKeys_single]
    by_cases h : fid = id
    · subst h
      simp
      omega
    · simp only [h, if_false]
      omega

theorem inv_end_agent (c : TelemetryCollector) (fid : String) (success : Bool)
    (error : Option String) (tokens : Option Tokens) (tools : Option (List ToolCall))
    (now : Int) (hI : Inv c) :
    Inv (end_agent_flow c fid success error tokens tools now).1 := by
  obtain ⟨hK, hC⟩ := hI
  cases hlu : dictLookup c.active_flows fid with
  | none =>
    rw [end_agent_flow_none c fid success error tokens tools now hlu]
    exact ⟨hK, hC⟩
  | some fd =>
    rw [end_agent_flow_some c fid fd success error tokens tools now hlu]
    obtain ⟨p, hmem, hp1, hp2⟩ := dictLookup_some_mem c.active_flows fid fd hlu
    have hfdid : fd.id = fid := by rw [← hp2, hK p hmem, hp1]
    constructor
    · intro q hq
      exact hK q (List.mem_filter.mp hq).1
    · intro id
      have hc := hC id
      have hcf := hC fid
      have hk1 := countKeys_pos_of_lookup c.active_flows fid fd hlu
      have hdq := countFlows_dequeAppend_le c.agent_flows_limit c.agent_flows
        (agentTerminalRecord fd success error tokens tools now) id
      have hended : (agentTerminalRecord fd success error tokens tools now).id = fd.id := rfl
      unfold countIn at hc hcf ⊢
      dsimp only
      by_cases h : id = fid
      · subst h
        rw [countKeys_erase_self]
        rw [hended, hfdid] at hdq
        simp at hdq
        omega
      · rw [countKeys_erase_ne c.active_flows fid id h]
        rw [hended, hfdid] at hdq
        have : fid ≠ id := fun he => h he.symm
        simp only [this, if_false] at hdq
        omega

theorem inv_end_monitor (c : TelemetryCollector) (fid : String) (success : Bool)
    (error : Option String) (tokens : Option Tokens) (tools : Option (List ToolCall))
    (insights : Option Insights) (now : Int) (hI : Inv c) :
    Inv (end_monitor_flow c fid success error tokens tools insights now).1 := by
  obtain ⟨hK, hC⟩ := hI
  cases hlu : dictLookup c.active_flows fid with
  | none =>
    rw [end_monitor_flow_none c fid success error tokens tools insights now hlu]
    exact ⟨hK, hC⟩
  | some fd =>
    rw [end_monitor_flow_some c fid fd success error tokens tools insights now hlu]
    obtain ⟨p, hmem, hp1, hp2⟩ := dictLookup_some_mem c.active_flows fid fd hlu
    have hfdid : fd.id = fid := by rw [← hp2, hK p hmem, hp1]
    constructor
    · intro q hq
      exact hK q (List.mem_filter.mp hq).1
    · intro id
      have hc := hC id
      have hcf := hC fid
      have hk1 := countKeys_pos_of_lookup c.active_flows fid fd hlu
      have hdq := countFlows_dequeAppend_le c.monitor_flows_limit c.monitor_flows
        (monitorTerminalRecord fd success error tokens tools insights now) id
      have hended :
          (monitorTerminalRecord fd success error tokens tools insights now).id = fd.id := rfl
      unfold countIn at hc hcf ⊢
      dsimp only
      by_cases h : id = fid
      · subst h
        rw [countKeys_erase_self]
        rw [hended, hfdid] at hdq
        simp at hdq
        omega
      · rw [countKeys_erase_ne c.active_flows fid id h]
        rw [hended, hfdid] at hdq
        have : fid ≠ id := fun he => h he.symm
        simp only [this, if_false] at hdq
        omega

theorem inv_applyOp (c : TelemetryCollector) (op : LedgerOp) (hI : Inv c)
    (hf : opFresh c op = true) : Inv (applyOp c op) := by
  cases op with
  | startAgent fid req now =>
    have hf0 : countIn c fid = 0 := by
      simpa [opFresh] using hf
    exact inv_insert_fresh c fid _ rfl hI hf0
  | startMonitor cycle now =>
    have hf0 : countIn c (monitorFlowId cycle now) = 0 := by
      simpa [opFresh] using hf
    exact inv_insert_fresh c (monitorFlowId cycle now) _ rfl hI hf0
  | endAgent fid success error tokens tools now =>
    exact inv_end_agent c fid success error tokens tools now hI
  | endMonitor fid success error tokens tools insights now =>
    exact inv_end_monitor c fid success error tokens tools insights now hI

theorem inv_freshRun : ∀ (ops : List LedgerOp) (c : TelemetryCollector),
    Inv c → freshRun c ops = true → Inv (ops.foldl applyOp c) := by
  intro ops
  induction ops with
  | nil => intro c hI _; exact hI
  | cons op ops ih =>
    intro c hI h
    rw [freshRun, Bool.and_eq_true] at h
    exact ih (applyOp c op) (inv_applyOp c op hI h.1) h.2

/-- C2 (amended): provided every start operation uses a flow id not
currently present anywhere in the ledger (the uniqueness contract the
spec places on callers), then after any sequence of the four ledger
operations from a freshly constructed collector every flow id occurs at
most once across {active table, completed agent sequence, completed
monitor sequence} — never in two places at once and never duplicated
(an id can occur zero times once capacity eviction has dropped it);
moreover ending an active flow atomically removes it from the active
table, appends its terminal record to the matching completed sequence,
and returns that record. -/
theorem C2_lifecycle_exclusivity (al ml tl : Option Nat) (ops : List LedgerOp)
    (h : freshRun (TelemetryCollector.init al ml tl) ops = true) :
    (∀ id, countIn (ops.foldl applyOp (TelemetryCollector.init al ml tl)) id ≤ 1)
    ∧ (∀ (c : TelemetryCollector) (fid : String) (fd : Flow) (success : Bool)
        (error : Option String) (tokens : Option Tokens) (tools : Option (List ToolCall))
        (now : Int), dictLookup c.active_flows fid = some fd →
        dictLookup (end_agent_flow c fid success error tokens tools now).1.active_flows fid
          = none
        ∧ (end_agent_flow c fid success error tokens tools now).1.agent_flows
          = dequeAppend c.agent_flows_limit c.agent_flows
              (agentTerminalRecord fd success error tokens tools now)
        ∧ (end_agent_flow c fid success error tokens tools now).1.monitor_flows
          = c.monitor_flows
        ∧ (end_agent_flow c fid success error tokens tools now).2
          = some (agentTerminalRecord fd success error tokens tools now))
    ∧ (∀ (c : TelemetryCollector) (fid : String) (fd : Flow) (success : Bool)
        (error : Option String) (tokens : Option Tokens) (tools : Option (List ToolCall))
        (insights : Option Insights) (now : Int),
        dictLookup c.active_flows fid = some fd →
        dictLookup
            (end_monitor_flow c fid success error tokens tools insights now).1.active_flows fid
          = none
        ∧ (end_monitor_flow c fid success error tokens tools insights now).1.monitor_flows
          = dequeAppend c.monitor_flows_limit c.monitor_flows
              (monitorTerminalRecord fd success error tokens tools insights now)
        ∧ (end_monitor_flow c fid success error tokens tools insights now).1.agent_flows
          = c.agent_flows
        ∧ (end_monitor_flow c fid success error tokens tools insights now).2
          = some (monitorTerminalRecord fd success error tokens tools insights now)) := by
  refine ⟨fun id => (inv_freshRun ops (TelemetryCollector.init al ml tl)
      (inv_init al ml tl) h).2 id, ?_, ?_⟩
  · intro c fid fd success error tokens tools now hlu
    rw [end_agent_flow_some c fid fd success error tokens tools now hlu]
    exact ⟨dictLookup_erase_self c.active_flows fid, rfl, rfl, rfl⟩
  · intro c fid fd success error tokens tools insights now hlu
    rw [end_monitor_flow_some c fid fd success error tokens tools insights now hlu]
    exact ⟨dictLookup_erase_self c.active_flows fid, rfl, rfl, rfl⟩

/-- Witness for C2: a fresh two-operation run (start then end of agent
flow `"a"`), checked at id `"a"`. -/
theorem C2_lifecycle_exclusivity_witness :
    freshRun (TelemetryCollector.init none none none)
        [LedgerOp.startAgent "a" "q" 0, LedgerOp.endAgent "a" true none none none 700] = true
    ∧ countIn ([LedgerOp.startAgent "a" "q" 0,
        LedgerOp.endAgent "a" true none none none 700].foldl applyOp
        (TelemetryCollector.init none none none)) "a" ≤ 1 :=
  ⟨by decide,
   (C2_lifecycle_exclusivity none none none
     [LedgerOp.startAgent "a" "q" 0, LedgerOp.endAgent "a" true none none none 700]
     (by decide)).1 "a"⟩

end KubeIntel
